import Mathlib

/-!
Verification of the per-station actor of `client.go` (`Client.Run`), the
barcode normalization helper `stripLeading10`, and their interplay with the
retry maps, shallowly embedded in Lean.

The actor is modelled as two pure step functions, one per inbox source of the
`select` loop in `Client.Run`:

* `handleKoha`  — handles one UI message (`case msg := <-c.fromKoha`);
* `handleRFID`  — handles one device response (`case resp := <-c.fromRFID`).

Each step returns the updated `Client` record together with the effects the
handler performed: device commands written (`sendToRFID`), UI messages written
(`sendToKoha`), SIP backend invocations (`DoSIPCall`), whether the quit channel
was signalled, and whether the device codec was reset (`c.rfid.Reset()`).

The SIP backend (`DoSIPCall` with `sipFormMsgItemStatus`/`itemStatusParse` and
`sipFormMsgCheckin`/`checkinParse`) is not part of the analysed source file; it
is abstracted as an oracle mirroring Go's multiple return `(Message, error)`.
-/

/-- State enum `RFIDState`. Its declaration is outside the analysed source
file; the constructors are the values `client.go` uses, plus the initial
idle state a fresh `Client` starts in (Go zero value of the enum). -/
inductive RFIDState where
  | RFIDIdle
  | RFIDCheckinWaitForBegOK
  | RFIDCheckin
  | RFIDWaitForCheckinAlarmLeave
  | RFIDWaitForCheckinAlarmOn
  | RFIDWaitForEndOK
  deriving DecidableEq, Repr

/-- Device command enum. `client.go` sends `cmdInitVersion`, `cmdBeginScan`,
`cmdAlarmLeave` and `cmdAlarmOn`; `cmdEndScan` is the end-scan-session command
of the device protocol (never sent by the analysed source). -/
inductive RFIDCommand where
  | cmdInitVersion
  | cmdBeginScan
  | cmdEndScan
  | cmdAlarmOn
  | cmdAlarmLeave
  deriving DecidableEq, Repr

/-- Device request record `RFIDReq`: the actor only populates the command. -/
structure RFIDReq where
  Cmd : RFIDCommand
  deriving DecidableEq, Repr

/-- Device response record `RFIDResp`: success flag, barcode, tag identifier
(Go zero values as defaults). -/
structure RFIDResp where
  OK : Bool := false
  Barcode : String := ""
  Tag : String := ""
  deriving DecidableEq, Repr

/-- Item payload of a UI `Message` (barcode, title, unknown-item flag,
transaction-failed flag), with Go zero values as defaults. -/
structure Item where
  Barcode : String := ""
  Title : String := ""
  Unknown : Bool := false
  TransactionFailed : Bool := false
  deriving DecidableEq, Repr

/-- UI protocol message `Message` (action, branch, item, error flags and
message), with Go zero values as defaults. -/
structure Message where
  Action : String := ""
  Branch : String := ""
  Item : Item := {}
  RFIDError : Bool := false
  SIPError : Bool := false
  ErrorMessage : String := ""
  deriving DecidableEq, Repr

/-- Go map write `m[k] = v` on a map represented as an association list:
replace the binding of `k` if present, otherwise append it. -/
def mapSet {α : Type} (m : List (String × α)) (k : String) (v : α) :
    List (String × α) :=
  match m with
  | [] => [(k, v)]
  | (k', v') :: rest =>
      if k' = k then (k, v) :: rest else (k', v') :: mapSet rest k v

/-- Go map read `m[k]`: the value bound to `k`, if any. -/
def mapGet {α : Type} (m : List (String × α)) (k : String) : Option α :=
  match m with
  | [] => none
  | (k', v') :: rest => if k' = k then some v' else mapGet rest k

/-- Mutable state of the per-station actor: the fields of `Client` that
`Client.Run` reads or writes (connection handles and channels are effects,
not state). -/
structure Client where
  state : RFIDState := .RFIDIdle
  branch : String := ""
  current : Message := {}
  items : List (String × Message) := []
  failedAlarmOn : List (String × String) := []
  failedAlarmOff : List (String × String) := []
  deriving DecidableEq, Repr

/-- Normalization helper `stripLeading10`: Go's
`strings.TrimPrefix(barcode, "10")` removes one leading `"10"` if the string
starts with it, and returns the string unchanged otherwise. -/
def stripLeading10 (barcode : String) : String :=
  match barcode.data with
  | '1' :: '0' :: rest => String.mk rest
  | _ => barcode

/-- One SIP backend invocation, recording which call was made and with which
arguments (`sipFormMsgItemStatus(barcode)` resp.
`sipFormMsgCheckin(branch, barcode)`). -/
inductive SIPInvocation where
  | itemStatus (barcode : String)
  | checkin (branch : String) (barcode : String)
  deriving DecidableEq, Repr

/-- Modelled from the spec: the Circulation Call Adapter. `DoSIPCall`,
`sipFormMsgItemStatus`, `sipFormMsgCheckin`, `itemStatusParse` and
`checkinParse` are not in the analysed source; the oracle abstracts the
synchronous backend call, mirroring Go's multiple return `(Message, error)`
— the second component is `some errorMessage` on failure, `none` on success. -/
structure SIPOracle where
  itemStatus : String → Message × Option String
  checkin : String → String → Message × Option String

/-- Result of one iteration of the actor loop: the updated client plus the
effects performed during the step. -/
structure StepResult where
  client : Client
  toRFID : List RFIDReq
  toKoha : List Message
  sipCalls : List SIPInvocation
  quit : Bool
  rfidReset : Bool
  deriving DecidableEq, Repr

/-- Handler for one UI message, translated from the `case msg := <-c.fromKoha`
arm of `Client.Run`:

* `"CHECKIN"`: set state to `RFIDCheckinWaitForBegOK`, reset the codec,
  record the branch, send `cmdBeginScan` — with no guard on the current state;
* `"END"`: set state to `RFIDWaitForEndOK` (no device command is sent);
* `"ITEM-INFO"`, `"WRITE"`, `"CHECKOUT"`, `"RETRY-ALARM-ON"`,
  `"RETRY-ALARM-OFF"`: empty cases, like the Go `switch` default — nothing
  happens. -/
def handleKoha (c : Client) (msg : Message) : StepResult :=
  if msg.Action = "CHECKIN" then
    { client := { c with state := .RFIDCheckinWaitForBegOK, branch := msg.Branch }
      toRFID := [{ Cmd := .cmdBeginScan }]
      toKoha := [], sipCalls := [], quit := false, rfidReset := true }
  else if msg.Action = "END" then
    { client := { c with state := .RFIDWaitForEndOK }
      toRFID := [], toKoha := [], sipCalls := [], quit := false
      rfidReset := false }
  else
    { client := c, toRFID := [], toKoha := [], sipCalls := [], quit := false
      rfidReset := false }

/-- Handler for one device response, translated from the
`case resp := <-c.fromRFID` arm of `Client.Run`: a `switch c.state` with cases
only for `RFIDCheckinWaitForBegOK` and `RFIDCheckin`; every other state falls
through doing nothing. -/
def handleRFID (sip : SIPOracle) (c : Client) (resp : RFIDResp) : StepResult :=
  match c.state with
  | .RFIDCheckinWaitForBegOK =>
      if !resp.OK then
        { client := c, toRFID := []
          toKoha := [{ Action := "CONNECT", RFIDError := true }]
          sipCalls := [], quit := true, rfidReset := false }
      else
        { client := { c with state := .RFIDCheckin }
          toRFID := [], toKoha := [], sipCalls := [], quit := false
          rfidReset := false }
  | .RFIDCheckin =>
      if !resp.OK then
        -- Not OK on checkin means missing tags: fetch item info from SIP
        -- unless this is already the current item.
        if stripLeading10 resp.Barcode ≠ c.current.Item.Barcode then
          match sip.itemStatus resp.Barcode with
          | (result, some e) =>
              { client := { c with current := result }
                toRFID := []
                toKoha := [{ Action := "CONNECT", SIPError := true
                             ErrorMessage := e }]
                sipCalls := [.itemStatus resp.Barcode], quit := true
                rfidReset := false }
          | (result, none) =>
              { client := { c with
                  current := { result with Action := "CHECKIN" },
                  items := mapSet c.items (stripLeading10 resp.Barcode)
                    { result with Action := "CHECKIN" },
                  state := .RFIDWaitForCheckinAlarmLeave }
                toRFID := [{ Cmd := .cmdAlarmLeave }]
                toKoha := []
                sipCalls := [.itemStatus resp.Barcode], quit := false
                rfidReset := false }
        else
          { client := { c with
              current := { c.current with Action := "CHECKIN" },
              items := mapSet c.items (stripLeading10 resp.Barcode)
                { c.current with Action := "CHECKIN" },
              state := .RFIDWaitForCheckinAlarmLeave }
            toRFID := [{ Cmd := .cmdAlarmLeave }]
            toKoha := [], sipCalls := [], quit := false, rfidReset := false }
      else
        -- Proceed with checkin transaction.
        match sip.checkin c.branch resp.Barcode with
        | (result, some e) =>
            { client := { c with current := result }
              toRFID := []
              toKoha := [{ Action := "CHECKIN", SIPError := true
                           ErrorMessage := e }]
              sipCalls := [.checkin c.branch resp.Barcode], quit := false
              rfidReset := false }
        | (result, none) =>
            if result.Item.Unknown || result.Item.TransactionFailed then
              { client := { c with
                  current := result,
                  state := .RFIDWaitForCheckinAlarmLeave }
                toRFID := [{ Cmd := .cmdAlarmLeave }]
                toKoha := []
                sipCalls := [.checkin c.branch resp.Barcode], quit := false
                rfidReset := false }
            else
              { client := { c with
                  current := result,
                  items := mapSet c.items (stripLeading10 resp.Barcode) result,
                  failedAlarmOn := mapSet c.failedAlarmOn
                    (stripLeading10 resp.Barcode) resp.Tag,
                  state := .RFIDWaitForCheckinAlarmOn }
                toRFID := [{ Cmd := .cmdAlarmOn }]
                toKoha := []
                sipCalls := [.checkin c.branch resp.Barcode], quit := false
                rfidReset := false }
  | _ =>
      { client := c, toRFID := [], toKoha := [], sipCalls := [], quit := false
        rfidReset := false }

/-- Trivial SIP oracle used for witnesses on paths that do not consult SIP. -/
def sipUnused : SIPOracle :=
  { itemStatus := fun _ => ({}, none), checkin := fun _ _ => ({}, none) }

/-- Claim C9: the normalization used for the pending-items and retry-map keys
strips the fixed two-character prefix `"10"` exactly once from the front of the
string, and occurrences of `"10"` later in the string are left intact; in
particular `stripLeading10 "1010A1" = "10A1"`. -/
theorem C9_stripLeading10_strips_once :
    (∀ s : String, stripLeading10 ("10" ++ s) = s) ∧
      stripLeading10 "1010A1" = "10A1" := by
  constructor
  · intro s
    cases s with
    | mk data => rfl
  · rfl

/-- Claim C10: a device response handled while the actor's state is anything
other than `RFIDCheckinWaitForBegOK` or `RFIDCheckin` — including both
alarm-wait states and `RFIDWaitForEndOK` — is silently discarded: no state
change, no UI message, no device command, no SIP call, no quit. -/
theorem C10_response_discarded_outside_active_states (sip : SIPOracle)
    (c : Client) (resp : RFIDResp)
    (h1 : c.state ≠ RFIDState.RFIDCheckinWaitForBegOK)
    (h2 : c.state ≠ RFIDState.RFIDCheckin) :
    handleRFID sip c resp =
      { client := c, toRFID := [], toKoha := [], sipCalls := [], quit := false,
        rfidReset := false } := by
  cases h : c.state with
  | RFIDCheckinWaitForBegOK => exact absurd h h1
  | RFIDCheckin => exact absurd h h2
  | RFIDIdle => simp [handleRFID, h]
  | RFIDWaitForCheckinAlarmLeave => simp [handleRFID, h]
  | RFIDWaitForCheckinAlarmOn => simp [handleRFID, h]
  | RFIDWaitForEndOK => simp [handleRFID, h]

/-- Concrete actor state awaiting the end-scan acknowledgement, with a
nonempty alarm-off retry map. -/
def c10client : Client :=
  { state := .RFIDWaitForEndOK, branch := "B1",
    failedAlarmOff := [("A9", "t9")] }

/-- Witness for C10 at a concrete input: a successful device response arriving
in `RFIDWaitForEndOK` is discarded. -/
theorem C10_response_discarded_witness :
    c10client.state ≠ RFIDState.RFIDCheckinWaitForBegOK ∧
    c10client.state ≠ RFIDState.RFIDCheckin ∧
    handleRFID sipUnused c10client { OK := true } =
      { client := c10client, toRFID := [], toKoha := [], sipCalls := [],
        quit := false, rfidReset := false } :=
  ⟨by decide, by decide,
   C10_response_discarded_outside_active_states sipUnused c10client
     { OK := true } (by decide) (by decide)⟩

/-- Concrete actor state awaiting the alarm-on acknowledgement for barcode
`"A1"`, whose tag id was stored in the alarm-on retry map before `cmdAlarmOn`
was sent (exactly the state `Client.Run` builds on a successful checkin). -/
def c1client : Client :=
  { state := .RFIDWaitForCheckinAlarmOn, branch := "B1",
    items := [("A1", { Action := "CHECKIN", Item := { Barcode := "A1" } })],
    failedAlarmOn := [("A1", "tag1")] }

/-- Claim C1 counterexample: after the actor handles a successful device
response in `RFIDWaitForCheckinAlarmOn` for barcode `"10A1"`, the normalized
key `"A1"` is still present in the alarm-on retry map and the state has not
returned to `RFIDCheckin`. -/
theorem C1_counterexample :
    (handleRFID sipUnused c1client
        { OK := true, Barcode := "10A1", Tag := "tag1" }).client.failedAlarmOn
      = [("A1", "tag1")] ∧
    (handleRFID sipUnused c1client
        { OK := true, Barcode := "10A1", Tag := "tag1" }).client.state
      ≠ RFIDState.RFIDCheckin := by
  constructor
  · rfl
  · decide

/-- Claim C1 as amended: `Client.Run` has no case for the alarm-wait states in
its device-response switch, so a device response (successful or not) handled
in `RFIDWaitForCheckinAlarmOn` or `RFIDWaitForCheckinAlarmLeave` is discarded:
the retry maps keep their entries, the state does not return to `RFIDCheckin`,
and no command, UI message or SIP call is made. -/
theorem C1_alarm_wait_response_discarded (sip : SIPOracle) (c : Client)
    (resp : RFIDResp)
    (h : c.state = RFIDState.RFIDWaitForCheckinAlarmOn ∨
         c.state = RFIDState.RFIDWaitForCheckinAlarmLeave) :
    handleRFID sip c resp =
      { client := c, toRFID := [], toKoha := [], sipCalls := [], quit := false,
        rfidReset := false } := by
  rcases h with h | h <;> simp [handleRFID, h]

/-- Witness for the amended C1 at a concrete input. -/
theorem C1_alarm_wait_response_discarded_witness :
    (c1client.state = RFIDState.RFIDWaitForCheckinAlarmOn ∨
     c1client.state = RFIDState.RFIDWaitForCheckinAlarmLeave) ∧
    handleRFID sipUnused c1client
        { OK := true, Barcode := "10A1", Tag := "tag1" } =
      { client := c1client, toRFID := [], toKoha := [], sipCalls := [],
        quit := false, rfidReset := false } :=
  ⟨Or.inl rfl,
   C1_alarm_wait_response_discarded sipUnused c1client
     { OK := true, Barcode := "10A1", Tag := "tag1" } (Or.inl rfl)⟩

/-- Concrete actor state awaiting the alarm-on acknowledgement with a failed
toggle recorded for barcode `"A1"`, as a `RETRY-ALARM-ON` request assumes. -/
def c2client : Client :=
  { state := .RFIDWaitForCheckinAlarmOn, branch := "B1",
    failedAlarmOn := [("A1", "tag1")] }

/-- Claim C2 counterexample: `"A1"` has an entry in the alarm-on retry map,
yet handling `RETRY-ALARM-ON` for it re-emits no device command and changes
no actor state. -/
theorem C2_counterexample :
    mapGet c2client.failedAlarmOn "A1" = some "tag1" ∧
    (handleKoha c2client
        { Action := "RETRY-ALARM-ON", Item := { Barcode := "A1" } }).toRFID
      = [] ∧
    (handleKoha c2client
        { Action := "RETRY-ALARM-ON", Item := { Barcode := "A1" } }).client
      = c2client :=
  ⟨rfl, rfl, rfl⟩

/-- Claim C2 as amended: the `RETRY-ALARM-ON` and `RETRY-ALARM-OFF` cases in
`Client.Run` are empty, so handling either action changes no actor state and
sends no device command, UI message or SIP call, whether or not the barcode
has an entry in the corresponding retry map. -/
theorem C2_retry_actions_are_noops (c : Client) (msg : Message)
    (h : msg.Action = "RETRY-ALARM-ON" ∨ msg.Action = "RETRY-ALARM-OFF") :
    handleKoha c msg =
      { client := c, toRFID := [], toKoha := [], sipCalls := [], quit := false,
        rfidReset := false } := by
  rcases h with h | h <;> simp [handleKoha, h]

/-- Witness for the amended C2 at a concrete input. -/
theorem C2_retry_actions_are_noops_witness :
    (Message.Action { Action := "RETRY-ALARM-ON", Item := { Barcode := "A1" } }
        = "RETRY-ALARM-ON" ∨
     Message.Action { Action := "RETRY-ALARM-ON", Item := { Barcode := "A1" } }
        = "RETRY-ALARM-OFF") ∧
    handleKoha c2client
        { Action := "RETRY-ALARM-ON", Item := { Barcode := "A1" } } =
      { client := c2client, toRFID := [], toKoha := [], sipCalls := [],
        quit := false, rfidReset := false } :=
  ⟨Or.inl rfl,
   C2_retry_actions_are_noops c2client
     { Action := "RETRY-ALARM-ON", Item := { Barcode := "A1" } } (Or.inl rfl)⟩

/-- Concrete actor state in the middle of a scan batch (`RFIDCheckin`), with a
pending item and a retry entry. -/
def c3client : Client :=
  { state := .RFIDCheckin, branch := "B1",
    items := [("A1", { Action := "CHECKIN", Item := { Barcode := "A1" } })],
    failedAlarmOn := [("A1", "tag1")] }

/-- Claim C3 counterexample: handling `CHECKIN` while the state is
`RFIDCheckin` is not a no-op — the state changes (to
`RFIDCheckinWaitForBegOK`) and a device command (`cmdBeginScan`) is sent. -/
theorem C3_counterexample :
    (handleKoha c3client { Action := "CHECKIN", Branch := "B2" }).client.state
      ≠ c3client.state ∧
    (handleKoha c3client { Action := "CHECKIN", Branch := "B2" }).toRFID
      ≠ [] := by
  constructor <;> decide

/-- Claim C3 as amended: the `CHECKIN` case in `Client.Run` has no guard on
the current state, so a `CHECKIN` message is accepted in every state: the
actor resets the codec, records the branch, emits `cmdBeginScan` and moves to
`RFIDCheckinWaitForBegOK`; the pending-items map and both retry maps are
unchanged. -/
theorem C3_checkin_accepted_in_any_state (c : Client) (msg : Message)
    (h : msg.Action = "CHECKIN") :
    handleKoha c msg =
      { client := { c with
          state := RFIDState.RFIDCheckinWaitForBegOK,
          branch := msg.Branch },
        toRFID := [{ Cmd := RFIDCommand.cmdBeginScan }], toKoha := [],
        sipCalls := [], quit := false, rfidReset := true } := by
  simp [handleKoha, h]

/-- Witness for the amended C3 at a concrete input: `CHECKIN` handled while
the state is `RFIDCheckin`. -/
theorem C3_checkin_accepted_witness :
    Message.Action { Action := "CHECKIN", Branch := "B2" } = "CHECKIN" ∧
    handleKoha c3client { Action := "CHECKIN", Branch := "B2" } =
      { client := { c3client with
          state := RFIDState.RFIDCheckinWaitForBegOK,
          branch := "B2" },
        toRFID := [{ Cmd := RFIDCommand.cmdBeginScan }], toKoha := [],
        sipCalls := [], quit := false, rfidReset := true } :=
  ⟨rfl,
   C3_checkin_accepted_in_any_state c3client
     { Action := "CHECKIN", Branch := "B2" } rfl⟩

/-- Concrete actor state used for the `END` claim: mid-batch in
`RFIDCheckin`. -/
def c4client : Client :=
  { state := .RFIDCheckin, branch := "B1" }

/-- Claim C4 counterexample: handling `END` from `RFIDCheckin` moves to
`RFIDWaitForEndOK` but sends no device command at all — in particular no
end-scan-session command is emitted. -/
theorem C4_counterexample :
    (handleKoha c4client { Action := "END" }).toRFID = [] ∧
    (handleKoha c4client { Action := "END" }).client.state
      = RFIDState.RFIDWaitForEndOK :=
  ⟨rfl, rfl⟩

/-- Claim C4 as amended: the `END` case in `Client.Run` only assigns the
state: handling `END` (from any state) moves to `RFIDWaitForEndOK` and emits
no device command, UI message or SIP call; all other fields are unchanged. -/
theorem C4_end_sets_wait_state_without_command (c : Client) (msg : Message)
    (h : msg.Action = "END") :
    handleKoha c msg =
      { client := { c with state := RFIDState.RFIDWaitForEndOK }, toRFID := [],
        toKoha := [], sipCalls := [], quit := false, rfidReset := false } := by
  simp [handleKoha, h]

/-- Witness for the amended C4 at a concrete input. -/
theorem C4_end_witness :
    Message.Action { Action := "END" } = "END" ∧
    handleKoha c4client { Action := "END" } =
      { client := { c4client with state := RFIDState.RFIDWaitForEndOK },
        toRFID := [], toKoha := [], sipCalls := [], quit := false,
        rfidReset := false } :=
  ⟨rfl, C4_end_sets_wait_state_without_command c4client { Action := "END" } rfl⟩

/-- Concrete actor state scanning with current item `"A1"`, so that barcode
`"10B2"` (normalized `"B2"`) differs from the current item. -/
def c5client : Client :=
  { state := .RFIDCheckin, branch := "B1",
    current := { Action := "CHECKIN", Item := { Barcode := "A1" } } }

/-- Claim C5 counterexample: for a scan-failure response with barcode
`"10B2"`, the backend item-status query is invoked with the raw barcode
`"10B2"`, not with the normalized barcode `"B2"`. -/
theorem C5_counterexample :
    SIPInvocation.itemStatus "10B2" ∈
      (handleRFID sipUnused c5client { OK := false, Barcode := "10B2" }).sipCalls ∧
    SIPInvocation.itemStatus "B2" ∉
      (handleRFID sipUnused c5client { OK := false, Barcode := "10B2" }).sipCalls := by
  constructor <;> decide

/-- Claim C5 as amended: `Client.Run` passes `resp.Barcode` unstripped to the
SIP calls; normalization is applied only to the map keys and to the comparison
with the current item. In `RFIDCheckin`, a failed scan whose normalized
barcode differs from the current item's issues the item-status query with the
raw device barcode, and a successful scan issues the checkin call with the raw
device barcode. -/
theorem C5_sip_calls_use_raw_barcode (sip : SIPOracle) (c : Client)
    (resp : RFIDResp) (h1 : c.state = RFIDState.RFIDCheckin) :
    (resp.OK = false → stripLeading10 resp.Barcode ≠ c.current.Item.Barcode →
      (handleRFID sip c resp).sipCalls
        = [SIPInvocation.itemStatus resp.Barcode]) ∧
    (resp.OK = true →
      (handleRFID sip c resp).sipCalls
        = [SIPInvocation.checkin c.branch resp.Barcode]) := by
  constructor
  · intro h2 h3
    rcases ho : sip.itemStatus resp.Barcode with ⟨result, err⟩
    cases err <;> simp [handleRFID, h1, h2, h3, ho]
  · intro h2
    rcases ho : sip.checkin c.branch resp.Barcode with ⟨result, err⟩
    cases err with
    | none => simp [handleRFID, h1, h2, ho]; split <;> rfl
    | some e => simp [handleRFID, h1, h2, ho]

/-- Witness for the amended C5 at a concrete input: scan failure for
`"10B2"` while the current item is `"A1"`. -/
theorem C5_sip_calls_use_raw_barcode_witness :
    c5client.state = RFIDState.RFIDCheckin ∧
    (handleRFID sipUnused c5client { OK := false, Barcode := "10B2" }).sipCalls
      = [SIPInvocation.itemStatus "10B2"] :=
  ⟨rfl,
   (C5_sip_calls_use_raw_barcode sipUnused c5client
       { OK := false, Barcode := "10B2" } rfl).1 rfl (by decide)⟩

/-- Concrete actor state scanning in branch `"B1"` with empty maps. -/
def c6client : Client :=
  { state := .RFIDCheckin, branch := "B1" }

/-- Item result the oracle returns for a successful, known, non-failed
checkin. -/
def itemA1 : Message :=
  { Action := "CHECKIN", Item := { Barcode := "A1", Title := "Some title" } }

/-- SIP oracle whose checkin call succeeds with `itemA1`. -/
def sipCheckinOK : SIPOracle :=
  { itemStatus := fun _ => ({}, none),
    checkin := fun _ _ => (itemA1, none) }

/-- Claim C6: in `RFIDCheckin`, on a successful scan whose backend checkin
call succeeds: if the returned item is flagged unknown or transaction-failed,
the actor emits `cmdAlarmLeave` and moves to `RFIDWaitForCheckinAlarmLeave`
without touching the pending-items map or the retry maps; otherwise it records
the normalized barcode in the alarm-on retry map with the response's tag id
(and the item in the pending-items map), emits `cmdAlarmOn` and moves to
`RFIDWaitForCheckinAlarmOn`. -/
theorem C6_checkin_success_branches (sip : SIPOracle) (c : Client)
    (resp : RFIDResp) (result : Message)
    (h1 : c.state = RFIDState.RFIDCheckin) (h2 : resp.OK = true)
    (h3 : sip.checkin c.branch resp.Barcode = (result, none)) :
    ((result.Item.Unknown = true ∨ result.Item.TransactionFailed = true) →
      handleRFID sip c resp =
        { client := { c with
            current := result,
            state := RFIDState.RFIDWaitForCheckinAlarmLeave },
          toRFID := [{ Cmd := RFIDCommand.cmdAlarmLeave }], toKoha := [],
          sipCalls := [SIPInvocation.checkin c.branch resp.Barcode],
          quit := false, rfidReset := false }) ∧
    (result.Item.Unknown = false → result.Item.TransactionFailed = false →
      handleRFID sip c resp =
        { client := { c with
            current := result,
            items := mapSet c.items (stripLeading10 resp.Barcode) result,
            failedAlarmOn := mapSet c.failedAlarmOn
              (stripLeading10 resp.Barcode) resp.Tag,
            state := RFIDState.RFIDWaitForCheckinAlarmOn },
          toRFID := [{ Cmd := RFIDCommand.cmdAlarmOn }], toKoha := [],
          sipCalls := [SIPInvocation.checkin c.branch resp.Barcode],
          quit := false, rfidReset := false }) := by
  constructor
  · intro hU
    rcases hU with hU | hU <;> simp [handleRFID, h1, h2, h3, hU]
  · intro hU hT
    simp [handleRFID, h1, h2, h3, hU, hT]

/-- Witness for C6 at a concrete input: successful scan of `"10A1"` whose
checkin call returns a known, non-failed item. -/
theorem C6_checkin_success_witness :
    c6client.state = RFIDState.RFIDCheckin ∧
    RFIDResp.OK { OK := true, Barcode := "10A1", Tag := "tag1" } = true ∧
    sipCheckinOK.checkin c6client.branch "10A1" = (itemA1, none) ∧
    handleRFID sipCheckinOK c6client
        { OK := true, Barcode := "10A1", Tag := "tag1" } =
      { client := { c6client with
          current := itemA1,
          items := mapSet c6client.items (stripLeading10 "10A1") itemA1,
          failedAlarmOn := mapSet c6client.failedAlarmOn
            (stripLeading10 "10A1") "tag1",
          state := RFIDState.RFIDWaitForCheckinAlarmOn },
        toRFID := [{ Cmd := RFIDCommand.cmdAlarmOn }], toKoha := [],
        sipCalls := [SIPInvocation.checkin c6client.branch "10A1"],
        quit := false, rfidReset := false } :=
  ⟨rfl, rfl, rfl,
   (C6_checkin_success_branches sipCheckinOK c6client
       { OK := true, Barcode := "10A1", Tag := "tag1" } itemA1
       rfl rfl rfl).2 rfl rfl⟩

/-- Concrete actor state scanning with current item `"A1"`, used for the
scan-failure path. -/
def c7client : Client :=
  { state := .RFIDCheckin, branch := "B1",
    current := { Action := "CHECKIN", Item := { Barcode := "A1" } } }

/-- SIP oracle whose item-status call succeeds with a titled item. -/
def sipItemStatusOK : SIPOracle :=
  { itemStatus := fun _ =>
      ({ Item := { Barcode := "B2", Title := "Other title" } }, none),
    checkin := fun _ _ => ({}, none) }

/-- Claim C7: in `RFIDCheckin`, on a failed scan response: the backend
item-status query is issued exactly when the normalized barcode differs from
the current item's barcode; `cmdAlarmOn` is never emitted on this path; when
the barcodes agree, or when the query succeeds, the context is recorded as a
`CHECKIN` action in the pending-items map keyed by normalized barcode,
`cmdAlarmLeave` is emitted and the actor moves to
`RFIDWaitForCheckinAlarmLeave` (retry maps unchanged). -/
theorem C7_scan_failure_path (sip : SIPOracle) (c : Client) (resp : RFIDResp)
    (h1 : c.state = RFIDState.RFIDCheckin) (h2 : resp.OK = false) :
    RFIDReq.mk RFIDCommand.cmdAlarmOn ∉ (handleRFID sip c resp).toRFID ∧
    ((handleRFID sip c resp).sipCalls =
      if stripLeading10 resp.Barcode = c.current.Item.Barcode then []
      else [SIPInvocation.itemStatus resp.Barcode]) ∧
    (stripLeading10 resp.Barcode = c.current.Item.Barcode →
      handleRFID sip c resp =
        { client := { c with
            current := { c.current with Action := "CHECKIN" },
            items := mapSet c.items (stripLeading10 resp.Barcode)
              { c.current with Action := "CHECKIN" },
            state := RFIDState.RFIDWaitForCheckinAlarmLeave },
          toRFID := [{ Cmd := RFIDCommand.cmdAlarmLeave }], toKoha := [],
          sipCalls := [], quit := false, rfidReset := false }) ∧
    (∀ result : Message,
      stripLeading10 resp.Barcode ≠ c.current.Item.Barcode →
      sip.itemStatus resp.Barcode = (result, none) →
      handleRFID sip c resp =
        { client := { c with
            current := { result with Action := "CHECKIN" },
            items := mapSet c.items (stripLeading10 resp.Barcode)
              { result with Action := "CHECKIN" },
            state := RFIDState.RFIDWaitForCheckinAlarmLeave },
          toRFID := [{ Cmd := RFIDCommand.cmdAlarmLeave }], toKoha := [],
          sipCalls := [SIPInvocation.itemStatus resp.Barcode], quit := false,
          rfidReset := false }) := by
  by_cases hbc : stripLeading10 resp.Barcode = c.current.Item.Barcode
  · refine ⟨?_, ?_, ?_, ?_⟩
    · simp [handleRFID, h1, h2, hbc]
    · simp [handleRFID, h1, h2, hbc]
    · intro _
      simp [handleRFID, h1, h2, hbc]
    · intro result hne _
      exact absurd hbc hne
  · rcases ho : sip.itemStatus resp.Barcode with ⟨result0, err⟩
    refine ⟨?_, ?_, ?_, ?_⟩
    · cases err <;> simp [handleRFID, h1, h2, hbc, ho]
    · cases err <;> simp [handleRFID, h1, h2, hbc, ho]
    · intro heq
      exact absurd heq hbc
    · intro result _ hok
      injection hok with h4 h5
      subst h4
      subst h5
      simp [handleRFID, h1, h2, hbc, ho]

/-- Witness for C7 at a concrete input: scan failure for `"10B2"` while the
current item is `"A1"` issues the item-status query. -/
theorem C7_scan_failure_witness :
    c7client.state = RFIDState.RFIDCheckin ∧
    RFIDResp.OK { OK := false, Barcode := "10B2" } = false ∧
    (handleRFID sipItemStatusOK c7client
        { OK := false, Barcode := "10B2" }).sipCalls
      = (if stripLeading10 "10B2" = c7client.current.Item.Barcode then []
         else [SIPInvocation.itemStatus "10B2"]) :=
  ⟨rfl, rfl,
   (C7_scan_failure_path sipItemStatusOK c7client
       { OK := false, Barcode := "10B2" } rfl rfl).2.1⟩

/-- Concrete actor state scanning in branch `"B1"` with a pending item and a
retry entry, used for the backend-failure claim. -/
def c8client : Client :=
  { state := .RFIDCheckin, branch := "B1",
    items := [("A1", { Action := "CHECKIN", Item := { Barcode := "A1" } })],
    failedAlarmOn := [("A1", "tag1")] }

/-- SIP oracle whose checkin call fails with a message. -/
def sipCheckinFail : SIPOracle :=
  { itemStatus := fun _ => ({}, none),
    checkin := fun _ _ => ({}, some "SIP server unavailable") }

/-- Claim C8: in `RFIDCheckin`, if the backend checkin call fails, the actor
sends the UI a `CHECKIN` message with the SIP-error flag and the error
message; the state stays `RFIDCheckin`, the pending-items map and both retry
maps are unchanged, no device command is sent and the station is not
terminated (only `current` takes the call's returned value, as in Go's
two-value assignment). -/
theorem C8_checkin_sip_failure (sip : SIPOracle) (c : Client)
    (resp : RFIDResp) (result : Message) (e : String)
    (h1 : c.state = RFIDState.RFIDCheckin) (h2 : resp.OK = true)
    (h3 : sip.checkin c.branch resp.Barcode = (result, some e)) :
    handleRFID sip c resp =
      { client := { c with current := result }, toRFID := [],
        toKoha := [{ Action := "CHECKIN", SIPError := true,
                     ErrorMessage := e }],
        sipCalls := [SIPInvocation.checkin c.branch resp.Barcode],
        quit := false, rfidReset := false } := by
  simp [handleRFID, h1, h2, h3]

/-- Witness for C8 at a concrete input: the checkin call fails with
"SIP server unavailable". -/
theorem C8_checkin_sip_failure_witness :
    c8client.state = RFIDState.RFIDCheckin ∧
    RFIDResp.OK { OK := true, Barcode := "10A1", Tag := "tag1" } = true ∧
    sipCheckinFail.checkin c8client.branch "10A1"
      = ({}, some "SIP server unavailable") ∧
    handleRFID sipCheckinFail c8client
        { OK := true, Barcode := "10A1", Tag := "tag1" } =
      { client := { c8client with current := {} }, toRFID := [],
        toKoha := [{ Action := "CHECKIN", SIPError := true,
                     ErrorMessage := "SIP server unavailable" }],
        sipCalls := [SIPInvocation.checkin c8client.branch "10A1"],
        quit := false, rfidReset := false } :=
  ⟨rfl, rfl, rfl,
   C8_checkin_sip_failure sipCheckinFail c8client
     { OK := true, Barcode := "10A1", Tag := "tag1" } {}
     "SIP server unavailable" rfl rfl rfl⟩
